import Mathlib

/-!
Shallow embedding of the backend request path of the anymind-challenges
repository: the in-memory fixed-window rate limiter, the aggregation
endpoint, the dynamic weather endpoint, the default route, and the
standalone seeding script.  Definitions mirror the TypeScript source in
backend/src/index.ts, backend/src/schema.ts and backend/src/seed.ts.
-/

/-! ## Rate limiter (backend/src/index.ts, lines 121-150)

The store is a Map from client address to a record with a request count
and a window reset timestamp; we embed it as an association list with
JavaScript Map semantics (set replaces in place, get returns the first
match).  Timestamps are milliseconds as natural numbers. -/

structure RateLimitEntry where
  count : Nat
  resetTime : Nat
deriving DecidableEq

/-- The in-memory rate-limit mapping from client address to entry. -/
abbrev RateLimitStore := List (String × RateLimitEntry)

/-- JavaScript Map.get: first binding for the key, if any. -/
def getEntry : RateLimitStore → String → Option RateLimitEntry
  | [], _ => none
  | (k, v) :: rest, ip => if k = ip then some v else getEntry rest ip

/-- JavaScript Map.set: replace the binding in place, else append. -/
def setEntry : RateLimitStore → String → RateLimitEntry → RateLimitStore
  | [], ip, v => [(ip, v)]
  | (k, w) :: rest, ip, v =>
      if k = ip then (ip, v) :: rest else (k, w) :: setEntry rest ip v

/-- const RATE_LIMIT = 5 -/
def RATE_LIMIT : Nat := 5

/-- const WINDOW_MS = 60 * 1000 -/
def WINDOW_MS : Nat := 60000

inductive RateDecision where
  | allowed
  | denied
deriving DecidableEq

/-- The local record of the rateLimiter middleware (index.ts lines
133-138): the stored entry for the client address, or a fresh zero-count
record when the entry is absent or its window has expired. -/
def currentRecord (store : RateLimitStore) (ip : String) (now : Nat) :
    RateLimitEntry :=
  match getEntry store ip with
  | none => RateLimitEntry.mk 0 (now + WINDOW_MS)
  | some r =>
      if now > r.resetTime then RateLimitEntry.mk 0 (now + WINDOW_MS) else r

/-- The rateLimiter middleware (index.ts lines 130-150): fetch the entry
for the client address; if absent or expired, start a fresh window with
count 0; deny when the record count exceeds RATE_LIMIT, without writing;
otherwise increment, write back and allow. -/
def rateLimiter (store : RateLimitStore) (ip : String) (now : Nat) :
    RateDecision × RateLimitStore :=
  if (currentRecord store ip now).count > RATE_LIMIT then
    (RateDecision.denied, store)
  else
    (RateDecision.allowed,
      setEntry store ip
        (RateLimitEntry.mk ((currentRecord store ip now).count + 1)
          (currentRecord store ip now).resetTime))

/-- A sequence of requests from one client address at given times. -/
def runRequests (store : RateLimitStore) (ip : String) :
    List Nat → List RateDecision × RateLimitStore
  | [] => ([], store)
  | t :: ts =>
      let step := rateLimiter store ip t
      let rest := runRequests step.2 ip ts
      (step.1 :: rest.1, rest.2)

/-- A trace of requests from arbitrary client addresses at given times. -/
def runTrace (store : RateLimitStore) : List (String × Nat) → RateLimitStore
  | [] => store
  | (ip, now) :: rest => runTrace (rateLimiter store ip now).2 rest

theorem getEntry_setEntry_self (s : RateLimitStore) (ip : String)
    (v : RateLimitEntry) : getEntry (setEntry s ip v) ip = some v := by
  induction s with
  | nil => simp [setEntry, getEntry]
  | cons hd tl ih =>
      obtain ⟨k, w⟩ := hd
      by_cases hk : k = ip
      · simp [setEntry, getEntry, hk]
      · simp [setEntry, getEntry, hk, ih]

theorem getEntry_setEntry_ne (s : RateLimitStore) (ip k : String)
    (v : RateLimitEntry) (hne : k ≠ ip) :
    getEntry (setEntry s ip v) k = getEntry s k := by
  have hne' : ip ≠ k := Ne.symm hne
  induction s with
  | nil => simp [setEntry, getEntry, hne']
  | cons hd tl ih =>
      obtain ⟨k', w⟩ := hd
      by_cases hk : k' = ip
      · subst hk
        simp [setEntry, getEntry, hne']
      · simp [setEntry, getEntry, hk, ih]

/-! ## Data model (backend/src/index.ts, lines 22-47)

Rows of the three SQLite tables, with the REAL columns embedded as
rationals.  The auto-increment id and fetched_at columns play no role in
any handler output and are omitted. -/

structure CryptoRow where
  name : String
  symbol : String
  price : Rat
  market_cap : Rat
deriving DecidableEq

structure WeatherRow where
  city : String
  temperature : Rat
  condition : String
deriving DecidableEq

structure NewsRow where
  title : String
  source : String
  url : String
deriving DecidableEq

/-- Contents of the three tables of the relational store. -/
structure DbState where
  crypto : List CryptoRow
  weather : List WeatherRow
  news : List NewsRow
deriving DecidableEq

/-! ## HTTP responses

JSON bodies produced by the handlers, one constructor per body shape the
source can emit. -/

inductive ResponseBody where
  | errorJson (error : String)
  | aggregated (crypto : List CryptoRow) (weather : WeatherRow)
      (latest_news : List NewsRow)
  | weatherJson (city : String) (temperature : Rat) (condition : String)
deriving DecidableEq

inductive Response where
  | json (status : Nat) (body : ResponseBody)
  | redirect (status : Nat) (location : String)
  | expressDefault404
deriving DecidableEq

def statusOf : Response → Nat
  | Response.json s _ => s
  | Response.redirect s _ => s
  | Response.expressDefault404 => 404

/-- The fixed 429 body of the rate limiter (index.ts lines 142-144). -/
def tooManyRequests : Response :=
  Response.json 429
    (ResponseBody.errorJson "Too many requests, please wait before retrying.")

/-! ## Upstream weather payloads (backend/src/schema.ts, lines 21-24)

WeatherApiSchema validates the shape main.temp plus weather array of
condition objects, and requires the weather array to be non-empty
(.nonempty() makes parse throw on an empty array). -/

structure WeatherMain where
  temp : Rat
deriving DecidableEq

structure WeatherCondition where
  main : String
deriving DecidableEq

structure WeatherApiPayload where
  main : WeatherMain
  weather : List WeatherCondition
deriving DecidableEq

/-- WeatherApiSchema.parse: the shape is carried by the type; the
.nonempty() refinement rejects an empty weather array (throwing in the
source, modelled as none). -/
def weatherApiParse (p : WeatherApiPayload) : Option WeatherApiPayload :=
  if p.weather = [] then none else some p

/-- Outcome of an upstream fetch-plus-json step: success carries the
decoded JSON payload; failure is a thrown network or decoding error. -/
inductive FetchResult (α : Type) where
  | success (body : α)
  | failure
deriving DecidableEq

/-! ## Endpoint handlers (backend/src/index.ts, lines 152-216) -/

/-- The /aggregated-data handler body (lines 155-184): read all crypto
rows, the first weather row (LIMIT 1) and all news rows; 500 when any of
the three is empty, otherwise 200 with the composed object. -/
def aggregatedDataResponse (db : DbState) : Response :=
  let cryptos := db.crypto
  let weathers := db.weather.take 1
  let newsItems := db.news
  if cryptos.length = 0 ∨ weathers.length = 0 ∨ newsItems.length = 0 then
    Response.json 500 (ResponseBody.errorJson "Data not available.")
  else
    match weathers with
    | w :: _ => Response.json 200 (ResponseBody.aggregated cryptos w newsItems)
    | [] => Response.json 500 (ResponseBody.errorJson "Data not available.")

/-- The /weather handler body (lines 187-211).  The city query parameter
defaults to New York when absent or empty (JavaScript || on a falsy
string); a thrown fetch or schema-parse error is caught and answered
500; a present but falsy first condition is answered 400; otherwise 200
with city, temperature and condition.  The handler never writes to the
store, so the table state is returned unchanged. -/
def weatherHandler (cityQuery : Option String)
    (upstream : FetchResult WeatherApiPayload) (db : DbState) :
    Response × DbState :=
  let city :=
    match cityQuery with
    | none => "New York"
    | some c => if c = "" then "New York" else c
  match upstream with
  | FetchResult.failure =>
      (Response.json 500 (ResponseBody.errorJson "Failed to fetch weather."), db)
  | FetchResult.success raw =>
      match weatherApiParse raw with
      | none =>
          (Response.json 500 (ResponseBody.errorJson "Failed to fetch weather."),
            db)
      | some weatherData =>
          match weatherData.weather.head? with
          | none =>
              (Response.json 400 (ResponseBody.errorJson "Invalid weather data."),
                db)
          | some w0 =>
              if w0.main = "" then
                (Response.json 400
                  (ResponseBody.errorJson "Invalid weather data."), db)
              else
                (Response.json 200
                  (ResponseBody.weatherJson city weatherData.main.temp w0.main),
                  db)

/-- Whole-process state shared across requests: the SQLite tables and
the in-memory rate-limit mapping. -/
structure ServerState where
  db : DbState
  rateLimitStore : RateLimitStore
deriving DecidableEq

/-- GET /aggregated-data including its rateLimiter middleware: a denial
answers 429 without running the handler; otherwise the handler runs over
the (unchanged) table state. -/
def handleAggregatedData (s : ServerState) (ip : String) (now : Nat) :
    Response × ServerState :=
  let step := rateLimiter s.rateLimitStore ip now
  (if step.1 = RateDecision.denied then tooManyRequests
   else aggregatedDataResponse s.db,
   ServerState.mk s.db step.2)

/-- GET /weather including its rateLimiter middleware. -/
def handleWeather (s : ServerState) (ip : String) (now : Nat)
    (cityQuery : Option String) (upstream : FetchResult WeatherApiPayload) :
    Response × ServerState :=
  let step := rateLimiter s.rateLimitStore ip now
  let out := weatherHandler cityQuery upstream s.db
  (if step.1 = RateDecision.denied then tooManyRequests else out.1,
   ServerState.mk (if step.1 = RateDecision.denied then s.db else out.2) step.2)

/-- Route dispatch in registration order (index.ts lines 155, 187, 214):
/aggregated-data and /weather are wrapped by the rate limiter, the root
path redirects permanently without touching the limiter, anything else
falls through to the framework 404. -/
def dispatch (path : String) (cityQuery : Option String)
    (upstream : FetchResult WeatherApiPayload) (s : ServerState)
    (ip : String) (now : Nat) : Response × ServerState :=
  if path = "/aggregated-data" then handleAggregatedData s ip now
  else if path = "/weather" then handleWeather s ip now cityQuery upstream
  else if path = "/" then (Response.redirect 301 "/aggregated-data", s)
  else (Response.expressDefault404, s)

/-! ## Seeding script (backend/src/seed.ts)

The standalone seeder reads three environment variables (each defaulting
to the empty string via the nullish coalescing on Bun.env), aborts with
a logged error when any is missing, and otherwise clears the three
tables and repopulates them sequentially from the three upstream calls.
Any thrown error (network failure, non-ok response, schema rejection)
aborts the remaining steps and is logged; rows already written stay. -/

structure SeedEnv where
  DATABASE_URL : String
  OPENWEATHER_API_KEY : String
  NEWSAPI_API_KEY : String
deriving DecidableEq

/-- One element of the CoinGecko markets response
(schema.ts lines 4-17). -/
structure CoinMarket where
  id : String
  name : String
  symbol : String
  current_price : Rat
  market_cap : Rat
  total_volume : Rat
  price_change_percentage_24h : Option Rat
  sparkline_in_7d : List Rat
deriving DecidableEq

/-- One element of the NewsAPI articles response
(schema.ts lines 28-39). -/
structure NewsArticle where
  title : String
  source_name : String
  url : String
deriving DecidableEq

/-- A row of the Postgres crypto table targeted by the seeder
(seed.ts line 48). -/
structure SeedCryptoRow where
  name : String
  symbol : String
  price : Rat
  market_cap : Rat
  price_change_24h : Option Rat
  volume_24h : Rat
  sparkline_7d : List Rat
deriving DecidableEq

/-- Contents of the three Postgres tables the seeder writes. -/
structure SeedDb where
  crypto : List SeedCryptoRow
  weather : List WeatherRow
  news : List NewsRow
deriving DecidableEq

/-- Outcome of one upstream fetch in the seeder: a rejected fetch, or a
response with its ok flag and a body that either matches the schema
shape (some) or fails schema validation (none). -/
inductive UpstreamFetch (α : Type) where
  | netError
  | response (ok : Bool) (body : Option α)
deriving DecidableEq

/-- console.error text of the catch block in seed.ts (line 101). -/
def seedingErrorLog : String := "Error during data seeding:"

/-- console.log text on full success (seed.ts line 99). -/
def seedingCompleteLog : String := "Data seeding complete!"

/-- fetchAndStoreData of seed.ts: check the environment, clear the
tables, then run crypto, weather and news steps in order.  A throw in
any step lands in the catch with the error logged; the weather step
skips its insert (without aborting) when the first condition is falsy.
Returns the final table contents and the decisive console line. -/
def Seed.fetchAndStoreData (env : SeedEnv)
    (cryptoUp : UpstreamFetch (List CoinMarket))
    (weatherUp : UpstreamFetch WeatherApiPayload)
    (newsUp : UpstreamFetch (List NewsArticle))
    (db : SeedDb) : SeedDb × List String :=
  if env.DATABASE_URL = "" then
    (db, ["DATABASE_URL is not set. Cannot seed data."])
  else if env.OPENWEATHER_API_KEY = "" ∨ env.NEWSAPI_API_KEY = "" then
    (db, ["API keys are missing. Please set OPENWEATHER_API_KEY and NEWSAPI_API_KEY."])
  else
    let cleared : SeedDb := SeedDb.mk [] [] []
    match cryptoUp with
    | UpstreamFetch.netError => (cleared, [seedingErrorLog])
    | UpstreamFetch.response cok cbody =>
        if cok = false then (cleared, [seedingErrorLog])
        else
          match cbody with
          | none => (cleared, [seedingErrorLog])
          | some coins =>
              let afterCrypto : SeedDb :=
                SeedDb.mk
                  (coins.map (fun coin =>
                    SeedCryptoRow.mk coin.name coin.symbol.toUpper
                      coin.current_price coin.market_cap
                      coin.price_change_percentage_24h coin.total_volume
                      coin.sparkline_in_7d))
                  cleared.weather cleared.news
              match weatherUp with
              | UpstreamFetch.netError => (afterCrypto, [seedingErrorLog])
              | UpstreamFetch.response wok wbody =>
                  if wok = false then (afterCrypto, [seedingErrorLog])
                  else
                    match wbody with
                    | none => (afterCrypto, [seedingErrorLog])
                    | some rawWeather =>
                        match weatherApiParse rawWeather with
                        | none => (afterCrypto, [seedingErrorLog])
                        | some weatherData =>
                            let afterWeather : SeedDb :=
                              match weatherData.weather.head? with
                              | none => afterCrypto
                              | some w0 =>
                                  if w0.main = "" then afterCrypto
                                  else
                                    SeedDb.mk afterCrypto.crypto
                                      (afterCrypto.weather ++
                                        [WeatherRow.mk "Ho Chi Minh"
                                          weatherData.main.temp w0.main])
                                      afterCrypto.news
                            match newsUp with
                            | UpstreamFetch.netError =>
                                (afterWeather, [seedingErrorLog])
                            | UpstreamFetch.response nok nbody =>
                                if nok = false then
                                  (afterWeather, [seedingErrorLog])
                                else
                                  match nbody with
                                  | none => (afterWeather, [seedingErrorLog])
                                  | some articles =>
                                      if articles = [] then
                                        (afterWeather, [seedingErrorLog])
                                      else
                                        (SeedDb.mk afterWeather.crypto
                                          afterWeather.weather
                                          (afterWeather.news ++
                                            articles.map (fun a =>
                                              NewsRow.mk a.title a.source_name
                                                a.url)),
                                          [seedingCompleteLog])

/-! ## Basic lemmas about the rate limiter -/

theorem rateLimiter_denied_def (store : RateLimitStore) (ip : String)
    (now : Nat) (h : (currentRecord store ip now).count > RATE_LIMIT) :
    rateLimiter store ip now = (RateDecision.denied, store) := by
  simp [rateLimiter, h]

theorem rateLimiter_allowed_def (store : RateLimitStore) (ip : String)
    (now : Nat) (h : ¬ (currentRecord store ip now).count > RATE_LIMIT) :
    rateLimiter store ip now =
      (RateDecision.allowed,
        setEntry store ip
          (RateLimitEntry.mk ((currentRecord store ip now).count + 1)
            (currentRecord store ip now).resetTime)) := by
  simp [rateLimiter, h]

theorem rateLimiter_denied_store (store : RateLimitStore) (ip : String)
    (now : Nat) (h : (rateLimiter store ip now).1 = RateDecision.denied) :
    (rateLimiter store ip now).2 = store := by
  by_cases hc : (currentRecord store ip now).count > RATE_LIMIT
  · rw [rateLimiter_denied_def store ip now hc]
  · rw [rateLimiter_allowed_def store ip now hc] at h
    simp at h

theorem handleAggregatedData_db (s : ServerState) (ip : String) (now : Nat) :
    (handleAggregatedData s ip now).2.db = s.db := rfl

theorem handleAggregatedData_allowed (s : ServerState) (ip : String)
    (now : Nat)
    (h : (rateLimiter s.rateLimitStore ip now).1 = RateDecision.allowed) :
    (handleAggregatedData s ip now).1 = aggregatedDataResponse s.db := by
  simp [handleAggregatedData, h]

/-! ## Sample data used by the concrete evaluations -/

def btcRow : CryptoRow := CryptoRow.mk "Bitcoin" "BTC" 50000 1000000000000

def hcmRow : WeatherRow := WeatherRow.mk "Ho Chi Minh" 30 "Clear"

def newsRow0 : NewsRow :=
  NewsRow.mk "Headline" "Reuters" "https://example.com/a"

def dbSeeded : DbState := DbState.mk [btcRow] [hcmRow] [newsRow0]

def dbNoNews : DbState := DbState.mk [btcRow] [hcmRow] []

def atlantisPayload : WeatherApiPayload :=
  WeatherApiPayload.mk (WeatherMain.mk 25) []

/-! ## Claims -/

/-- Claim C1.  The claim says at most Q = 5 requests from one client key
receive Allowed within one window and the 6th receives Denied.  The code
checks record.count > RATE_LIMIT on the pre-increment count, so from a
fresh store seven same-key requests inside one window receive six
Allowed and only the seventh is Denied: the sixth request is Allowed,
contradicting the claim and the comment above the middleware, which
announces a limit of 5 requests per window. -/
theorem c1_sixth_request_allowed :
    (runRequests [] "203.0.113.7" (List.replicate 7 0)).1 =
      [RateDecision.allowed, RateDecision.allowed, RateDecision.allowed,
        RateDecision.allowed, RateDecision.allowed, RateDecision.allowed,
        RateDecision.denied] := by
  decide

/-- Claim C4.  When the entry for a client key is absent, or its
resetTime lies strictly in the past, the check builds the replacement
record with count 0 and resetTime now + WINDOW_MS before counting: the
request is Allowed and the stored entry afterwards is exactly the one a
first request from a fresh key (empty store) would leave behind. -/
theorem c4_reset_behaves_fresh (store : RateLimitStore) (ip : String)
    (now : Nat)
    (h : getEntry store ip = none ∨
      ∃ r, getEntry store ip = some r ∧ now > r.resetTime) :
    (rateLimiter store ip now).1 = RateDecision.allowed ∧
    getEntry (rateLimiter store ip now).2 ip =
      some (RateLimitEntry.mk 1 (now + WINDOW_MS)) ∧
    (rateLimiter [] ip now).1 = RateDecision.allowed ∧
    getEntry (rateLimiter [] ip now).2 ip =
      some (RateLimitEntry.mk 1 (now + WINDOW_MS)) := by
  have hrec : currentRecord store ip now = RateLimitEntry.mk 0 (now + WINDOW_MS) := by
    rcases h with h | ⟨r, hr, hlt⟩
    · simp [currentRecord, h]
    · simp [currentRecord, hr, hlt]
  have hrec0 : currentRecord [] ip now = RateLimitEntry.mk 0 (now + WINDOW_MS) := by
    simp [currentRecord, getEntry]
  have hc : ¬ (currentRecord store ip now).count > RATE_LIMIT := by
    rw [hrec]; simp [RATE_LIMIT]
  have hc0 : ¬ (currentRecord [] ip now).count > RATE_LIMIT := by
    rw [hrec0]; simp [RATE_LIMIT]
  refine ⟨?_, ?_, ?_, ?_⟩
  · rw [rateLimiter_allowed_def store ip now hc]
  · rw [rateLimiter_allowed_def store ip now hc, hrec]
    exact getEntry_setEntry_self store ip (RateLimitEntry.mk 1 (now + WINDOW_MS))
  · rw [rateLimiter_allowed_def [] ip now hc0]
  · rw [rateLimiter_allowed_def [] ip now hc0, hrec0]
    exact getEntry_setEntry_self [] ip (RateLimitEntry.mk 1 (now + WINDOW_MS))

/-- Store with one expired entry, used to instantiate C4. -/
def expiredStore : RateLimitStore := [("x", RateLimitEntry.mk 6 100)]

/-- Witness for C4 at a concrete expired entry. -/
theorem c4_reset_behaves_fresh_witness :
    (getEntry expiredStore "x" = none ∨
      ∃ r, getEntry expiredStore "x" = some r ∧ 101 > r.resetTime) ∧
    ((rateLimiter expiredStore "x" 101).1 = RateDecision.allowed ∧
      getEntry (rateLimiter expiredStore "x" 101).2 "x" =
        some (RateLimitEntry.mk 1 (101 + WINDOW_MS)) ∧
      (rateLimiter [] "x" 101).1 = RateDecision.allowed ∧
      getEntry (rateLimiter [] "x" 101).2 "x" =
        some (RateLimitEntry.mk 1 (101 + WINDOW_MS))) :=
  ⟨Or.inr ⟨RateLimitEntry.mk 6 100, by decide, by decide⟩,
    c4_reset_behaves_fresh expiredStore "x" 101
      (Or.inr ⟨RateLimitEntry.mk 6 100, by decide, by decide⟩)⟩

/-- Claim C5.  A Denied outcome leaves the whole server state untouched:
the rate-limit mapping is not written (so the denied key keeps its
stored count), the tables are not mutated, and the response is the fixed
429 body. -/
theorem c5_denied_frame (s : ServerState) (ip : String) (now : Nat)
    (h : (rateLimiter s.rateLimitStore ip now).1 = RateDecision.denied) :
    handleAggregatedData s ip now = (tooManyRequests, s) := by
  have hstore := rateLimiter_denied_store s.rateLimitStore ip now h
  simp [handleAggregatedData, h, hstore]

/-- Server state whose client has exhausted its window, used to
instantiate C5. -/
def deniedState : ServerState :=
  ServerState.mk dbSeeded [("198.51.100.9", RateLimitEntry.mk 6 120000)]

/-- Witness for C5 at a concrete exhausted entry. -/
theorem c5_denied_frame_witness :
    (rateLimiter deniedState.rateLimitStore "198.51.100.9" 60).1 =
      RateDecision.denied ∧
    handleAggregatedData deniedState "198.51.100.9" 60 =
      (tooManyRequests, deniedState) :=
  ⟨by decide, c5_denied_frame deniedState "198.51.100.9" 60 (by decide)⟩

/-- Claim C2.  The aggregation handler answers 200 with the composed
object (all crypto rows, the first weather row, all news rows) exactly
when the three tables are all non-empty, and answers 500 with the fixed
error body as soon as any one of them is empty. -/
theorem c2_aggregated_data_response (db : DbState) :
    (db.crypto ≠ [] → db.weather ≠ [] → db.news ≠ [] →
      ∃ w rest, db.weather = w :: rest ∧
        aggregatedDataResponse db =
          Response.json 200 (ResponseBody.aggregated db.crypto w db.news)) ∧
    ((db.crypto = [] ∨ db.weather = [] ∨ db.news = []) →
      aggregatedDataResponse db =
        Response.json 500 (ResponseBody.errorJson "Data not available.")) := by
  constructor
  · intro hc hw hn
    cases hweather : db.weather with
    | nil => exact absurd hweather hw
    | cons w rest =>
        refine ⟨w, rest, rfl, ?_⟩
        simp [aggregatedDataResponse, hweather, List.length_eq_zero, hc, hn]
  · intro h
    rcases h with h | h | h
    · simp [aggregatedDataResponse, List.length_eq_zero, h]
    · simp [aggregatedDataResponse, List.length_eq_zero, h]
    · simp [aggregatedDataResponse, List.length_eq_zero, h]

/-- Witness for C2: a fully seeded store answers 200, a store with an
empty news table answers 500. -/
theorem c2_aggregated_data_response_witness :
    (∃ w rest, dbSeeded.weather = w :: rest ∧
      aggregatedDataResponse dbSeeded =
        Response.json 200
          (ResponseBody.aggregated dbSeeded.crypto w dbSeeded.news)) ∧
    aggregatedDataResponse dbNoNews =
      Response.json 500 (ResponseBody.errorJson "Data not available.") :=
  ⟨(c2_aggregated_data_response dbSeeded).1 (by decide) (by decide) (by decide),
    (c2_aggregated_data_response dbNoNews).2 (Or.inr (Or.inr rfl))⟩

/-- Claim C6.  The aggregation endpoint never mutates the tables, and
its response is a function of the table contents alone: two successive
calls over the same store state (any client keys, any times) that both
pass the rate limiter return the same body. -/
theorem c6_aggregated_deterministic (s : ServerState) (ip ip2 : String)
    (now now2 : Nat)
    (h1 : (rateLimiter s.rateLimitStore ip now).1 = RateDecision.allowed)
    (h2 : (rateLimiter (handleAggregatedData s ip now).2.rateLimitStore
        ip2 now2).1 = RateDecision.allowed) :
    (handleAggregatedData s ip now).2.db = s.db ∧
    (handleAggregatedData (handleAggregatedData s ip now).2 ip2 now2).1 =
      (handleAggregatedData s ip now).1 := by
  refine ⟨handleAggregatedData_db s ip now, ?_⟩
  rw [handleAggregatedData_allowed _ ip2 now2 h2,
    handleAggregatedData_allowed s ip now h1, handleAggregatedData_db]

/-- Witness for C6: two calls over the seeded store from one client. -/
theorem c6_aggregated_deterministic_witness :
    ((rateLimiter (ServerState.mk dbSeeded []).rateLimitStore "9.9.9.9" 0).1 =
        RateDecision.allowed ∧
      (rateLimiter (handleAggregatedData (ServerState.mk dbSeeded [])
          "9.9.9.9" 0).2.rateLimitStore "9.9.9.9" 1).1 =
        RateDecision.allowed) ∧
    ((handleAggregatedData (ServerState.mk dbSeeded []) "9.9.9.9" 0).2.db =
        (ServerState.mk dbSeeded []).db ∧
      (handleAggregatedData
          (handleAggregatedData (ServerState.mk dbSeeded []) "9.9.9.9" 0).2
          "9.9.9.9" 1).1 =
        (handleAggregatedData (ServerState.mk dbSeeded []) "9.9.9.9" 0).1) :=
  ⟨⟨by decide, by decide⟩,
    c6_aggregated_deterministic (ServerState.mk dbSeeded []) "9.9.9.9"
      "9.9.9.9" 0 1 (by decide) (by decide)⟩

/-- Claim C7.  A /weather request without a city query parameter uses
the fixed fallback city New York, and on a successful upstream call
whose payload carries a (truthy) first condition entry the handler
answers 200 with city, temperature and condition, leaving the tables
untouched. -/
theorem c7_weather_default_city (db : DbState) (m : WeatherMain)
    (c : String) (rest : List WeatherCondition) (hc : c ≠ "") :
    weatherHandler none
      (FetchResult.success
        (WeatherApiPayload.mk m (WeatherCondition.mk c :: rest))) db =
      (Response.json 200 (ResponseBody.weatherJson "New York" m.temp c), db) := by
  simp [weatherHandler, weatherApiParse, hc]

/-- Witness for C7 at a concrete payload. -/
theorem c7_weather_default_city_witness :
    "Clouds" ≠ "" ∧
    weatherHandler none
      (FetchResult.success
        (WeatherApiPayload.mk (WeatherMain.mk 28) [WeatherCondition.mk "Clouds"]))
      dbSeeded =
      (Response.json 200
        (ResponseBody.weatherJson "New York" (WeatherMain.mk 28).temp "Clouds"),
        dbSeeded) :=
  ⟨by decide,
    c7_weather_default_city dbSeeded (WeatherMain.mk 28) "Clouds" [] (by decide)⟩

/-- Claim C3 counterexample.  For the upstream payload with an empty
condition list, WeatherApiSchema.parse throws (the weather array is
refined non-empty), the handler catch answers 500 with the generic
failure body, and in particular the status is not the claimed 400. -/
theorem c3_empty_condition_counterexample :
    (weatherHandler (some "Atlantis") (FetchResult.success atlantisPayload)
        dbSeeded).1 =
      Response.json 500 (ResponseBody.errorJson "Failed to fetch weather.") ∧
    statusOf (weatherHandler (some "Atlantis")
        (FetchResult.success atlantisPayload) dbSeeded).1 ≠ 400 := by
  decide

/-- Claim C3 as amended.  A /weather request whose upstream payload
carries an empty condition list is answered 500 with the generic
failure body (schema validation throws before the 400 branch can run),
and no row is written to the weather table. -/
theorem c3_amended_empty_condition_500 (cityQuery : Option String)
    (p : WeatherApiPayload) (db : DbState) (h : p.weather = []) :
    weatherHandler cityQuery (FetchResult.success p) db =
      (Response.json 500 (ResponseBody.errorJson "Failed to fetch weather."),
        db) := by
  simp [weatherHandler, weatherApiParse, h]

/-- Witness for the amended C3 at the Atlantis payload. -/
theorem c3_amended_empty_condition_500_witness :
    atlantisPayload.weather = [] ∧
    weatherHandler (some "Atlantis") (FetchResult.success atlantisPayload)
        dbSeeded =
      (Response.json 500 (ResponseBody.errorJson "Failed to fetch weather."),
        dbSeeded) :=
  ⟨rfl,
    c3_amended_empty_condition_500 (some "Atlantis") atlantisPayload dbSeeded rfl⟩

/-- Claim C8.  When the store connection string or either upstream API
key is missing (empty after the nullish default), the seeder logs the
corresponding error line and returns before touching the store: no
table is cleared and no row is inserted. -/
theorem c8_seed_missing_env_no_mutation (env : SeedEnv)
    (cryptoUp : UpstreamFetch (List CoinMarket))
    (weatherUp : UpstreamFetch WeatherApiPayload)
    (newsUp : UpstreamFetch (List NewsArticle)) (db : SeedDb)
    (h : env.DATABASE_URL = "" ∨ env.OPENWEATHER_API_KEY = "" ∨
      env.NEWSAPI_API_KEY = "") :
    (Seed.fetchAndStoreData env cryptoUp weatherUp newsUp db).1 = db ∧
    ((Seed.fetchAndStoreData env cryptoUp weatherUp newsUp db).2 =
        ["DATABASE_URL is not set. Cannot seed data."] ∨
      (Seed.fetchAndStoreData env cryptoUp weatherUp newsUp db).2 =
        ["API keys are missing. Please set OPENWEATHER_API_KEY and NEWSAPI_API_KEY."]) := by
  rcases h with h | h | h
  · rw [Seed.fetchAndStoreData, if_pos h]
    exact ⟨rfl, Or.inl rfl⟩
  · by_cases hd : env.DATABASE_URL = ""
    · rw [Seed.fetchAndStoreData, if_pos hd]
      exact ⟨rfl, Or.inl rfl⟩
    · rw [Seed.fetchAndStoreData, if_neg hd, if_pos (Or.inl h)]
      exact ⟨rfl, Or.inr rfl⟩
  · by_cases hd : env.DATABASE_URL = ""
    · rw [Seed.fetchAndStoreData, if_pos hd]
      exact ⟨rfl, Or.inl rfl⟩
    · rw [Seed.fetchAndStoreData, if_neg hd, if_pos (Or.inr h)]
      exact ⟨rfl, Or.inr rfl⟩

/-- Environment with a connection string but no API keys, used to
instantiate C8. -/
def envMissingKeys : SeedEnv := SeedEnv.mk "postgres://neon.example/db" "" ""

/-- A non-empty seed store, showing C8 leaves existing rows in place. -/
def seedDbBefore : SeedDb :=
  SeedDb.mk [] [hcmRow] [newsRow0]

/-- Witness for C8 with both API keys missing. -/
theorem c8_seed_missing_env_no_mutation_witness :
    (envMissingKeys.DATABASE_URL = "" ∨
      envMissingKeys.OPENWEATHER_API_KEY = "" ∨
      envMissingKeys.NEWSAPI_API_KEY = "") ∧
    ((Seed.fetchAndStoreData envMissingKeys
        (UpstreamFetch.netError) (UpstreamFetch.netError)
        (UpstreamFetch.netError) seedDbBefore).1 = seedDbBefore ∧
      ((Seed.fetchAndStoreData envMissingKeys
          (UpstreamFetch.netError) (UpstreamFetch.netError)
          (UpstreamFetch.netError) seedDbBefore).2 =
          ["DATABASE_URL is not set. Cannot seed data."] ∨
        (Seed.fetchAndStoreData envMissingKeys
          (UpstreamFetch.netError) (UpstreamFetch.netError)
          (UpstreamFetch.netError) seedDbBefore).2 =
          ["API keys are missing. Please set OPENWEATHER_API_KEY and NEWSAPI_API_KEY."])) :=
  ⟨Or.inr (Or.inl rfl),
    c8_seed_missing_env_no_mutation envMissingKeys UpstreamFetch.netError
      UpstreamFetch.netError UpstreamFetch.netError seedDbBefore
      (Or.inr (Or.inl rfl))⟩

/-- Claim C10.  A GET on the root path never goes through the rate
limiter: it is answered with a 301 redirect to /aggregated-data and the
whole server state, the rate-limit mapping included, is returned
unchanged, whatever the client address and history. -/
theorem c10_root_redirect (cityQuery : Option String)
    (upstream : FetchResult WeatherApiPayload) (s : ServerState)
    (ip : String) (now : Nat) :
    dispatch "/" cityQuery upstream s ip now =
      (Response.redirect 301 "/aggregated-data", s) := by
  rfl

/-! ## Invariant of the rate-limit mapping -/

/-- Every entry of the store has a count between 1 and RATE_LIMIT + 1
and a resetTime that was set to now + WINDOW_MS by one of the requests
of the trace. -/
def GoodStore (reqs : List (String × Nat)) (store : RateLimitStore) : Prop :=
  ∀ ip e, getEntry store ip = some e →
    (1 ≤ e.count ∧ e.count ≤ RATE_LIMIT + 1) ∧
    ∃ now, (ip, now) ∈ reqs ∧ e.resetTime = now + WINDOW_MS

theorem goodStore_mono (pre post : List (String × Nat))
    (store : RateLimitStore) (h : GoodStore pre store)
    (hsub : ∀ p, p ∈ pre → p ∈ post) : GoodStore post store := by
  intro ip e he
  obtain ⟨hb, now, hmem, hrt⟩ := h ip e he
  exact ⟨hb, now, hsub _ hmem, hrt⟩

theorem goodStore_step (pre : List (String × Nat)) (store : RateLimitStore)
    (ip : String) (now : Nat) (h : GoodStore pre store) :
    GoodStore (pre ++ [(ip, now)]) (rateLimiter store ip now).2 := by
  by_cases hc : (currentRecord store ip now).count > RATE_LIMIT
  · rw [rateLimiter_denied_def store ip now hc]
    exact goodStore_mono pre _ store h (fun p hp => List.mem_append_left _ hp)
  · rw [rateLimiter_allowed_def store ip now hc]
    intro k e he
    by_cases hk : k = ip
    · subst hk
      rw [getEntry_setEntry_self] at he
      injection he with he2
      subst he2
      constructor
      · have hle : (currentRecord store k now).count ≤ RATE_LIMIT :=
          Nat.le_of_not_lt hc
        exact ⟨Nat.succ_le_succ (Nat.zero_le _), Nat.succ_le_succ hle⟩
      · cases hg : getEntry store k with
        | none =>
            refine ⟨now, List.mem_append_right _ (by simp), ?_⟩
            simp [currentRecord, hg]
        | some r =>
            by_cases ht : now > r.resetTime
            · refine ⟨now, List.mem_append_right _ (by simp), ?_⟩
              simp [currentRecord, hg, ht]
            · obtain ⟨_, now', hmem, hrt⟩ := h k r hg
              refine ⟨now', List.mem_append_left _ hmem, ?_⟩
              have hcr : currentRecord store k now = r := by
                simp [currentRecord, hg, ht]
              simp [hcr, hrt]
    · rw [getEntry_setEntry_ne store ip k _ hk] at he
      obtain ⟨hb, now', hmem, hrt⟩ := h k e he
      exact ⟨hb, now', List.mem_append_left _ hmem, hrt⟩

theorem goodStore_runTrace (reqs : List (String × Nat)) :
    ∀ pre store, GoodStore pre store →
      GoodStore (pre ++ reqs) (runTrace store reqs) := by
  induction reqs with
  | nil =>
      intro pre store h
      simpa [runTrace] using h
  | cons hd tl ih =>
      intro pre store h
      obtain ⟨ip, now⟩ := hd
      have h1 := goodStore_step pre store ip now h
      have h2 := ih (pre ++ [(ip, now)]) (rateLimiter store ip now).2 h1
      rw [List.append_assoc] at h2
      simpa [runTrace] using h2

/-- Claim C9.  Along any trace of requests started from the empty
mapping, every entry stored in the rate-limit mapping has a count
between 1 and RATE_LIMIT + 1 (never 0, never above 6) and a resetTime
equal to now + WINDOW_MS for the request that created or reset it. -/
theorem c9_rate_store_invariant (reqs : List (String × Nat)) (ip : String)
    (e : RateLimitEntry) (h : getEntry (runTrace [] reqs) ip = some e) :
    (1 ≤ e.count ∧ e.count ≤ RATE_LIMIT + 1) ∧
    ∃ now, (ip, now) ∈ reqs ∧ e.resetTime = now + WINDOW_MS := by
  have h0 : GoodStore [] [] := by
    intro k e0 hk
    simp [getEntry] at hk
  exact goodStore_runTrace reqs [] [] h0 ip e h

/-- Witness for C9 on a one-request trace. -/
theorem c9_rate_store_invariant_witness :
    getEntry (runTrace [] [("a", 7)]) "a" =
      some (RateLimitEntry.mk 1 (7 + WINDOW_MS)) ∧
    ((1 ≤ (RateLimitEntry.mk 1 (7 + WINDOW_MS)).count ∧
        (RateLimitEntry.mk 1 (7 + WINDOW_MS)).count ≤ RATE_LIMIT + 1) ∧
      ∃ now, ("a", now) ∈ [("a", 7)] ∧
        (RateLimitEntry.mk 1 (7 + WINDOW_MS)).resetTime = now + WINDOW_MS) :=
  ⟨by decide,
    c9_rate_store_invariant [("a", 7)] "a"
      (RateLimitEntry.mk 1 (7 + WINDOW_MS)) (by decide)⟩
